import Mathlib

/-!
Shallow embedding of the MPC contract's cryptographic protocol layer
(secret splitting, hash-based VSS, per-node validation state machine, and
threshold-signature aggregation placeholder), translated from the
JavaScript sources:

* `mpc-node/src/crypto.js` — hashing, partial signatures, decryption wrapper,
  additive secret sharing, signature aggregation;
* the numeric-share `MPCValidator` (`validateTransition`, `validateTransfer`);
* the node-side VSS verifier (`verifyVSSShare`, `verifyTransitionVSS`);
* `frontend/vss.js` — the prover side (`generateShamirShares`,
  `generateVSSProof`) and the browser verifier.

Modelling conventions:

* JavaScript numbers are modelled as `Int` with exact integer arithmetic
  (the code only ever manipulates integers well inside the 2^53 exact
  range; `Math.floor` on such values is the identity).
* Byte buffers (`Buffer` / `Uint8Array`) are modelled as `List Nat` whose
  entries are bytes; the `Uint8` coercion a `Buffer.from`/`Uint8Array`
  constructor applies to each entry is modelled as `· % 256`.
* Randomness (`Math.random`, `crypto.getRandomValues`) is modelled by an
  explicit supply `rand : Nat → Int` giving the i-th drawn value.
* Authenticated encryption (`nacl.box`) is treated as an oracle: a node's
  attempt to open an envelope either fails (`none`, the tamper / key
  mismatch case, in which `decryptFromSender` throws "Decryption failed")
  or yields the decrypted, JSON-parsed share bundle (`some bundle`).
  Thrown JavaScript exceptions are modelled with `Except String`.
-/

set_option maxRecDepth 4000000

set_option maxHeartbeats 4000000

namespace MPC

/-! ## SHA-256 (FIPS 180-4) over byte lists -/

/-- Truncate to a 32-bit word, as JavaScript's `>>> 0` / hash-word arithmetic. -/
def w32 (n : Nat) : Nat := n % 4294967296

/-- Right-rotation of a 32-bit word. -/
def rotr (n x : Nat) : Nat := w32 ((x >>> n) ||| (x <<< (32 - n)))

/-- Bitwise complement of a 32-bit word. -/
def nnot32 (x : Nat) : Nat := x ^^^ 4294967295

def bsig0 (x : Nat) : Nat := rotr 2 x ^^^ rotr 13 x ^^^ rotr 22 x

def bsig1 (x : Nat) : Nat := rotr 6 x ^^^ rotr 11 x ^^^ rotr 25 x

def ssig0 (x : Nat) : Nat := rotr 7 x ^^^ rotr 18 x ^^^ (x >>> 3)

def ssig1 (x : Nat) : Nat := rotr 17 x ^^^ rotr 19 x ^^^ (x >>> 10)

def chf (e f g : Nat) : Nat := (e &&& f) ^^^ (nnot32 e &&& g)

def majf (a b c : Nat) : Nat := (a &&& b) ^^^ (a &&& c) ^^^ (b &&& c)

/-- The 64 SHA-256 round constants, written in decimal. -/
def sha256K : List Nat :=
  [1116352408, 1899447441, 3049323471, 3921009573, 961987163,
   1508970993, 2453635748, 2870763221, 3624381080, 310598401,
   607225278, 1426881987, 1925078388, 2162078206, 2614888103,
   3248222580, 3835390401, 4022224774, 264347078, 604807628,
   770255983, 1249150122, 1555081692, 1996064986, 2554220882,
   2821834349, 2952996808, 3210313671, 3336571891, 3584528711,
   113926993, 338241895, 666307205, 773529912, 1294757372,
   1396182291, 1695183700, 1986661051, 2177026350, 2456956037,
   2730485921, 2820302411, 3259730800, 3345764771, 3516065817,
   3600352804, 4094571909, 275423344, 430227734, 506948616,
   659060556, 883997877, 958139571, 1322822218, 1537002063,
   1747873779, 1955562222, 2024104815, 2227730452, 2361852424,
   2428436474, 2756734187, 3204031479, 3329325298]

/-- The eight SHA-256 initial hash words, written in decimal. -/
def sha256H0 : List Nat :=
  [1779033703, 3144134277, 1013904242, 2773480762,
   1359893119, 2600822924, 528734635, 1541459225]

/-- Split a list into chunks of size `k` (fuel-based structural recursion). -/
def chunksAux (k : Nat) : Nat → List Nat → List (List Nat)
  | 0, _ => []
  | _, [] => []
  | fuel + 1, l => l.take k :: chunksAux k fuel (l.drop k)

def chunks (k : Nat) (l : List Nat) : List (List Nat) := chunksAux k l.length l

/-- Big-endian word from a list of bytes. -/
def wordOfBytes (b : List Nat) : Nat := b.foldl (fun a x => a * 256 + x % 256) 0

/-- Big-endian bytes of a 32-bit word. -/
def wordBytesBE (w : Nat) : List Nat :=
  [(w >>> 24) % 256, (w >>> 16) % 256, (w >>> 8) % 256, w % 256]

/-- SHA-256 padding: append 0x80, zeros to 56 mod 64, then the 64-bit
big-endian bit length. -/
def padMessage (msg : List Nat) : List Nat :=
  let bitLen := 8 * msg.length
  let zeros := (119 - msg.length % 64) % 64
  msg ++ [128] ++ List.replicate zeros 0 ++
    (List.range 8).map (fun i => (bitLen >>> (8 * (7 - i))) % 256)

/-- Message-schedule extension: append the next `fuel` schedule words. -/
def scheduleAux : Nat → List Nat → List Nat
  | 0, ws => ws
  | fuel + 1, ws =>
    let i := ws.length
    let nw := w32 (ws.getD (i - 16) 0 + ssig0 (ws.getD (i - 15) 0) +
                   ws.getD (i - 7) 0 + ssig1 (ws.getD (i - 2) 0))
    scheduleAux fuel (ws ++ [nw])

/-- One SHA-256 compression round on the 8-word working state. -/
def compressStep (st : List Nat) (kw : Nat × Nat) : List Nat :=
  let a := st.getD 0 0
  let b := st.getD 1 0
  let c := st.getD 2 0
  let d := st.getD 3 0
  let e := st.getD 4 0
  let f := st.getD 5 0
  let g := st.getD 6 0
  let h := st.getD 7 0
  let t1 := w32 (h + bsig1 e + chf e f g + kw.1 + kw.2)
  let t2 := w32 (bsig0 a + majf a b c)
  [w32 (t1 + t2), a, b, c, w32 (d + t1), e, f, g]

/-- Process one 64-byte block into the running hash state. -/
def compressBlock (hs : List Nat) (block : List Nat) : List Nat :=
  let ws := scheduleAux 48 ((chunks 4 block).map wordOfBytes)
  let st := (sha256K.zip ws).foldl compressStep hs
  (List.range 8).map (fun i => w32 (hs.getD i 0 + st.getD i 0))

/-- SHA-256 digest (32 bytes) of a byte list. -/
def sha256 (msg : List Nat) : List Nat :=
  let hs := (chunks 64 (padMessage msg)).foldl compressBlock sha256H0
  (hs.map wordBytesBE).flatten

/-- UTF-8 bytes of a string; the strings hashed by this code are ASCII, for
which the code point equals the byte. -/
def strBytes (s : String) : List Nat := s.toList.map Char.toNat

/-! ## Polynomials (`evaluatePolynomial` from `vss.js`)

The JavaScript loop accumulates `result += coefficients[i] * xPower;
xPower *= x` and finally applies `Math.floor`, which is the identity on the
integer values this code manipulates. -/

/-- The accumulator loop of `evaluatePolynomial`: `acc` is `result`, `p` is
`xPower`. -/
def evalPolyAux : List Int → Int → Int → Int → Int
  | [], _, acc, _ => acc
  | c :: rest, x, acc, p => evalPolyAux rest x (acc + c * p) (p * x)

/-- `evaluatePolynomial(coefficients, x)` from `vss.js`. -/
def evaluatePolynomial (coefficients : List Int) (x : Int) : Int :=
  evalPolyAux coefficients x 0 1

/-- Simple polynomial evaluation, for reasoning about the accumulator loop. -/
def polyval : List Int → Int → Int
  | [], _ => 0
  | c :: cs, x => c + x * polyval cs x

/-! ## Byte-level helpers shared by the VSS challenge computation -/

/-- `Buffer.from` / `new Uint8Array` coercion of a numeric array to bytes. -/
def toBytes (l : List Nat) : List Nat := l.map (· % 256)

/-- `readBigInt64BE(0)` / `getBigInt64(0, false)`: the first 8 bytes as a
big-endian signed 64-bit integer. -/
def bytesToSigned64BE (bytes : List Nat) : Int :=
  let u : Nat := (bytes.take 8).foldl (fun acc b => acc * 256 + b % 256) 0
  if u < 2 ^ 63 then (u : Int) else (u : Int) - 2 ^ 64

/-! ## VSS (Baghery-style hash-based scheme)

Node-side code from the node `vss.js` (`verifyVSSShare`,
`verifyTransitionVSS`); prover side from `frontend/vss.js`
(`generateShamirShares`, `generateVSSProof`).  The browser verifier in
`frontend/vss.js` is the same algorithm as the node verifier (`crypto.subtle`
instead of `node:crypto`), so one Lean function embeds both. -/

/-- `hashCommitment(v, r, gamma)`: SHA-256 of the template string
`v + "|" + r + "|" + gamma` (JavaScript renders integers in decimal,
matching `Int`'s `toString`). -/
def hashCommitment (v r gamma : Int) : List Nat :=
  sha256 (strBytes (toString v ++ "|" ++ toString r ++ "|" ++ toString gamma))

/-- The Fiat–Shamir challenge both prover and verifier compute:
`d = readBigInt64BE(SHA256(c_1 ‖ … ‖ c_n)) % 1000000n`.  JavaScript `BigInt`
`%` is the truncated remainder (`Int.tmod`). -/
def vssChallenge (commitments : List (List Nat)) : Int :=
  Int.tmod (bytesToSigned64BE (sha256 (commitments.map toBytes).flatten)) 1000000

/-- JavaScript array indexing `l[i]` for a possibly out-of-range or negative
signed index: `undefined` is modelled as `none`. -/
def idxGet {α : Type} (l : List α) (i : Int) : Option α :=
  if i < 0 then none else l[i.toNat]?

/-- `verifyVSSShare(nodeId, share, gamma, commitments, proofPolynomial)` from
the node `vss.js`.  An out-of-range `nodeId` makes `Buffer.from(undefined)`
throw, which the surrounding `try/catch` converts to `false` (the browser
variant reaches the same `false` through the length comparison against an
empty `Uint8Array`). -/
def verifyVSSShare (nodeId share gamma : Int) (commitments : List (List Nat))
    (proofPolynomial : List Int) : Bool :=
  let d := vssChallenge commitments
  let zValue := evaluatePolynomial proofPolynomial nodeId
  let rValue := zValue - d * share
  let expectedCommitment := hashCommitment share rValue gamma
  match idxGet commitments (nodeId - 1) with
  | none => false
  | some actualCommitment => expectedCommitment == toBytes actualCommitment

/-- The challenge exactly as the spec's words describe it: "the first 8
bytes, big-endian, of SHA-256 over the concatenated commitments, mod
1000000" (the 8-byte read is the signed `readBigInt64BE` and `mod` the
JavaScript `BigInt` truncated remainder, as in the reference
implementation the spec was written against). -/
def specChallenge (commitments : List (List Nat)) : Int :=
  Int.tmod (bytesToSigned64BE (sha256 commitments.flatten)) 1000000

/-- Reference acceptance predicate written from the spec's verifier
description (§4.2 / claim C5): SHA-256 of the string `share|r|gamma`, with
`r = Z(nodeId) − d·share` and `d` recomputed from the public commitment set,
must equal `commitments[nodeId−1]` byte-for-byte. -/
def vssShareSpecCheck (nodeId share gamma : Int) (commitments : List (List Nat))
    (proofPolynomial : List Int) : Prop :=
  ∃ c, idxGet commitments (nodeId - 1) = some c ∧
    sha256 (strBytes (toString share ++ "|" ++
      toString (evaluatePolynomial proofPolynomial nodeId -
        specChallenge commitments * share) ++
      "|" ++ toString gamma)) = c

/-- Decrypted share bundle (`ShareBundle` in the spec).  The five numeric
fields are modelled as present integers; `gamma` is optional because
`verifyTransitionVSS` explicitly tests it for `undefined`/`null`. -/
structure ShareBundle where
  old_balance_share : Int
  new_balance_share : Int
  amount_share : Int
  old_nonce_share : Int
  new_nonce_share : Int
  gamma : Option Int
  deriving DecidableEq, Repr

/-- The state transition restricted to the fields the validation core reads:
the VSS material, each optional because `verifyTransitionVSS` tests it for
absence. -/
structure StateTransition where
  vss_commitments : Option (List (List Nat))
  vss_proof_polynomial : Option (List Int)
  deriving DecidableEq, Repr

structure VSSResult where
  valid : Bool
  reason : String
  deriving DecidableEq, Repr

/-- `verifyTransitionVSS(nodeId, shares, transition)` from the node `vss.js`. -/
def verifyTransitionVSS (nodeId : Int) (shares : ShareBundle)
    (transition : StateTransition) : VSSResult :=
  match transition.vss_commitments, transition.vss_proof_polynomial with
  | some commitments, some proofPolynomial =>
    match shares.gamma with
    | none => ⟨false, "Gamma missing from encrypted shares"⟩
    | some gamma =>
      if verifyVSSShare nodeId shares.new_balance_share gamma commitments proofPolynomial
      then ⟨true, "VSS verification passed"⟩
      else ⟨false, "VSS verification failed for balance share"⟩
  | _, _ => ⟨false, "VSS proof missing from transition"⟩

/-- `generateShamirShares(secret, threshold, numShares)` from
`frontend/vss.js`: coefficients for degrees 1 .. threshold−1 come from the
randomness supply; shares are `P(1) .. P(n)`.  Returns (shares, polynomial). -/
def generateShamirShares (secret : Int) (threshold numShares : Nat)
    (rand : Nat → Int) : List Int × List Int :=
  let polynomial := secret :: (List.range (threshold - 1)).map rand
  let shares := (List.range numShares).map fun (j : Nat) =>
    evaluatePolynomial polynomial ((j : Int) + 1)
  (shares, polynomial)

/-- The proof-polynomial loop of `generateVSSProof`:
`Z[i] = Math.floor(R[i] + d·P[i])` for `i < max(R.length, P.length)`, with
missing coefficients read as 0. -/
def buildZ (R P : List Int) (d : Int) : List Int :=
  (List.range (max R.length P.length)).map fun i => R.getD i 0 + d * P.getD i 0

structure VSSProof where
  shares : List Int
  gammas : List Int
  commitments : List (List Nat)
  proofPolynomial : List Int
  challenge : Int
  rShares : List Int
  deriving Repr

/-- `generateVSSProof(secret, threshold, numNodes)` from `frontend/vss.js`.
The randomness supply is threaded in call order: `threshold − 1` coefficients
for `P`, then `threshold − 1` for `R`, then `numNodes` gammas. -/
def generateVSSProof (secret : Int) (threshold numNodes : Nat)
    (rand : Nat → Int) : VSSProof :=
  let pRes := generateShamirShares secret threshold numNodes rand
  let rRes := generateShamirShares 0 threshold numNodes
    (fun j => rand (threshold - 1 + j))
  let gammas := (List.range numNodes).map fun j => rand (2 * (threshold - 1) + j)
  let commitments := (List.range numNodes).map fun j =>
    hashCommitment (pRes.1.getD j 0) (rRes.1.getD j 0) (gammas.getD j 0)
  let d := vssChallenge commitments
  ⟨pRes.1, gammas, commitments, buildZ rRes.2 pRes.2 d, d, rRes.1⟩

/-! ## Secret sharing and signature aggregation (`mpc-node/src/crypto.js`) -/

/-- `createSecretShares(secret, totalShares, threshold)`: additive sharing;
`totalShares − 1` draws from the randomness supply (the source draws
`Math.floor(Math.random()*1000000) − 500000`), last share makes the sum equal
the secret.  The `threshold` argument is accepted but unused by the source. -/
def createSecretShares (secret : Int) (totalShares : Nat) (threshold : Nat)
    (rand : Nat → Int) : List Int :=
  let shares := (List.range (totalShares - 1)).map rand
  let sum := shares.foldl (· + ·) 0
  shares ++ [secret - sum]

/-- `reconstructSecret(shares)`: sum of the shares. -/
def reconstructSecret (shares : List Int) : Int := shares.foldl (· + ·) 0

/-- The inner loop of `aggregateSignatures`:
`for (i = 0; i < 32 && i < sig.length; i++) result[i] ^= sig[i]` over a
32-byte result buffer, the store truncating to a byte. -/
def xorFold (result sig : List Nat) : List Nat :=
  (List.range 32).map fun i =>
    if i < sig.length then (result.getD i 0 ^^^ sig.getD i 0) % 256
    else result.getD i 0

/-- `aggregateSignatures(partialSignatures)`: throws on an empty list, else
XOR-folds every signature into `Buffer.alloc(32)` (zero-initialised). -/
def aggregateSignatures (partialSignatures : List (List Nat)) :
    Except String (List Nat) :=
  if partialSignatures.length = 0 then Except.error "No signatures to aggregate"
  else Except.ok (partialSignatures.foldl xorFold (List.replicate 32 0))

/-- `hashShares(balance, nonce)`: SHA-256 over the two values encoded as
8-byte little-endian two's-complement (`writeBigInt64LE`). -/
def int64BytesLE (n : Int) : List Nat :=
  let u := (Int.emod n (2 ^ 64)).toNat
  (List.range 8).map fun i => (u >>> (8 * i)) % 256

def hashShares (balance nonce : Int) : List Nat :=
  sha256 (int64BytesLE balance ++ int64BytesLE nonce)

/-! ## Validator (`mpc-node/src/validator.js`, numeric-share variant) -/

/-- `decryptFromSender`: opening the envelope either fails
(`nacl.box.open` returns `null`, upon which the source throws
`Error('Decryption failed')`) or yields the JSON-parsed share bundle. -/
def decryptFromSender (opened : Option ShareBundle) : Except String ShareBundle :=
  match opened with
  | none => Except.error "Decryption failed"
  | some shares => Except.ok shares

/-- `MPCValidator` constructor state: node id and key pair. -/
structure MPCValidator where
  nodeId : Int
  privateKey : List Nat
  publicKey : List Nat
  deriving Repr

def jsonIntList (l : List Int) : String :=
  "[" ++ String.intercalate "," (l.map toString) ++ "]"

def jsonNatList (l : List Nat) : String :=
  "[" ++ String.intercalate "," (l.map toString) ++ "]"

def jsonOpt {α : Type} (f : α → String) : Option α → String
  | none => "null"
  | some a => f a

/-- `JSON.stringify({transition, shares})` restricted to the modelled fields:
a deterministic textual rendering of the transition's VSS material and the
decrypted bundle. -/
def signMessage (transition : StateTransition) (shares : ShareBundle) : List Nat :=
  strBytes ("\x7btransition:\x7bvss_commitments:" ++
    jsonOpt (fun cs => "[" ++ String.intercalate "," (cs.map jsonNatList) ++ "]")
      transition.vss_commitments ++
    ",vss_proof_polynomial:" ++
    jsonOpt jsonIntList transition.vss_proof_polynomial ++
    "\x7d,shares:\x7bold_balance_share:" ++ toString shares.old_balance_share ++
    ",new_balance_share:" ++ toString shares.new_balance_share ++
    ",amount_share:" ++ toString shares.amount_share ++
    ",old_nonce_share:" ++ toString shares.old_nonce_share ++
    ",new_nonce_share:" ++ toString shares.new_nonce_share ++
    ",gamma:" ++ jsonOpt toString shares.gamma ++ "\x7d\x7d")

/-- `generatePartialSignature(data, privateKey, nodeId)`: SHA-256 over the
serialized `{transition, shares}` object, the node id byte
(`Buffer.from([nodeId])` truncates to an unsigned byte), and the private key. -/
def generatePartialSignature (transition : StateTransition) (shares : ShareBundle)
    (privateKey : List Nat) (nodeId : Int) : List Nat :=
  sha256 (signMessage transition shares ++ [(Int.emod nodeId 256).toNat] ++
    toBytes privateKey)

structure ValidationResult where
  valid : Bool
  reason : String
  partialSignature : Option (List Nat)
  deriving DecidableEq, Repr

/-- Steps 2–6 of `validateTransition`, after a successful decryption: the VSS
check, the balance equation on shares, the nonce check with its
initialization exemption, and the partial signature.  The step-6 hash
commitments over (balance, nonce) pairs (`hashShares`) are computed only for
logging and gate nothing, so they do not appear in the result. -/
def validateDecrypted (v : MPCValidator) (transition : StateTransition)
    (shares : ShareBundle) : ValidationResult :=
  let vssResult := verifyTransitionVSS v.nodeId shares transition
  if vssResult.valid = false then
    ⟨false, vssResult.reason, none⟩
  else if ¬(shares.old_balance_share + shares.amount_share = shares.new_balance_share) then
    ⟨false, "Balance equation failed on share", none⟩
  else
    let isInitialization := shares.old_balance_share = 0 ∧
      shares.old_nonce_share = 0 ∧ shares.new_nonce_share = 0
    if ¬isInitialization ∧ ¬(shares.new_nonce_share = shares.old_nonce_share + 1) then
      ⟨false, "Nonce not incremented correctly on share", none⟩
    else
      ⟨true, "All checks passed",
        some (generatePartialSignature transition shares v.privateKey v.nodeId)⟩

/-- The body of `validateTransition` before its `catch`: every thrown
exception travels in the `Except` error channel. -/
def validateTransitionBody (v : MPCValidator) (transition : StateTransition)
    (opened : Option ShareBundle) : Except String ValidationResult :=
  (decryptFromSender opened).map (validateDecrypted v transition)

/-- `validateTransition(transition, encryptedShares, senderPublicKey)`: the
`try/catch` boundary converting any exception into
`{valid:false, reason:"Error: <message>", partialSignature:null}`. -/
def validateTransition (v : MPCValidator) (transition : StateTransition)
    (opened : Option ShareBundle) : ValidationResult :=
  match validateTransitionBody v transition opened with
  | Except.ok r => r
  | Except.error msg => ⟨false, "Error: " ++ msg, none⟩

structure TransferResult where
  valid : Bool
  reason : String
  deriving DecidableEq, Repr

/-- `validateTransfer(...)`: decrypts the sender and recipient bundles, then
checks both balance equations and both nonce increments (the four
intermediate `const`s are inlined here); any failure yields the single
reason string.  Exceptions are caught as in `validateTransition`. -/
def validateTransfer (v : MPCValidator)
    (senderOpened recipientOpened : Option ShareBundle) : TransferResult :=
  match decryptFromSender senderOpened with
  | Except.error msg => ⟨false, "Error: " ++ msg⟩
  | Except.ok senderShares =>
    match decryptFromSender recipientOpened with
    | Except.error msg => ⟨false, "Error: " ++ msg⟩
    | Except.ok recipientShares =>
      if ¬(senderShares.old_balance_share + senderShares.amount_share =
            senderShares.new_balance_share) ∨
         ¬(recipientShares.old_balance_share + recipientShares.amount_share =
            recipientShares.new_balance_share) ∨
         ¬(senderShares.new_nonce_share = senderShares.old_nonce_share + 1) ∨
         ¬(recipientShares.new_nonce_share = recipientShares.old_nonce_share + 1)
      then ⟨false, "Transfer validation failed on shares"⟩
      else ⟨true, "Transfer valid on shares"⟩

/-! ## Helper lemmas -/

theorem foldl_add_eq (l : List Int) (a : Int) : l.foldl (· + ·) a = a + l.sum := by
  induction l generalizing a with
  | nil => simp
  | cons x xs ih => simp [List.foldl_cons, ih (a + x)]; ring

theorem getD_range_map {α : Type} (f : Nat → α) {n i : Nat} (hi : i < n) (d : α) :
    ((List.range n).map f).getD i d = f i := by
  rw [List.getD_eq_getElem _ _ (by simpa using hi)]
  simp

/-- Every byte of a SHA-256 digest is below 256. -/
theorem sha256_bytes_lt (msg : List Nat) : ∀ b ∈ sha256 msg, b < 256 := by
  intro b hb
  unfold sha256 at hb
  rw [List.mem_flatten] at hb
  obtain ⟨l, hl, hbl⟩ := hb
  rw [List.mem_map] at hl
  obtain ⟨w, _, rfl⟩ := hl
  simp only [wordBytesBE, List.mem_cons, List.not_mem_nil, or_false] at hbl
  rcases hbl with rfl | rfl | rfl | rfl <;> exact Nat.mod_lt _ (by norm_num)

/-- `Uint8` coercion is the identity on byte-valued lists. -/
theorem toBytes_of_bytes (c : List Nat) (h : ∀ b ∈ c, b < 256) : toBytes c = c := by
  unfold toBytes
  rw [List.map_congr_left fun b hb => Nat.mod_eq_of_lt (h b hb)]
  exact List.map_id _

/-- `Uint8` coercion is the identity on a SHA-256 digest. -/
theorem toBytes_sha256 (msg : List Nat) : toBytes (sha256 msg) = sha256 msg :=
  toBytes_of_bytes _ (sha256_bytes_lt msg)

theorem toBytes_hashCommitment (v r g : Int) :
    toBytes (hashCommitment v r g) = hashCommitment v r g :=
  toBytes_sha256 _

theorem evalPolyAux_eq (coeffs : List Int) (x acc p : Int) :
    evalPolyAux coeffs x acc p = acc + p * polyval coeffs x := by
  induction coeffs generalizing acc p with
  | nil => simp [evalPolyAux, polyval]
  | cons c cs ih => simp [evalPolyAux, polyval, ih]; ring

theorem evaluatePolynomial_eq_polyval (coeffs : List Int) (x : Int) :
    evaluatePolynomial coeffs x = polyval coeffs x := by
  simp [evaluatePolynomial, evalPolyAux_eq]

theorem buildZ_nil_nil (d : Int) : buildZ [] [] d = [] := rfl

theorem buildZ_cons_cons (r p d : Int) (rs ps : List Int) :
    buildZ (r :: rs) (p :: ps) d = (r + d * p) :: buildZ rs ps d := by
  simp only [buildZ, List.length_cons, Nat.succ_max_succ, List.range_succ_eq_map,
    List.map_cons, List.map_map]
  rfl

theorem buildZ_cons_nil (r d : Int) (rs : List Int) :
    buildZ (r :: rs) [] d = (r + d * 0) :: buildZ rs [] d := by
  simp only [buildZ, List.length_cons, List.length_nil, Nat.max_zero,
    List.range_succ_eq_map, List.map_cons, List.map_map]
  rfl

theorem buildZ_nil_cons (p d : Int) (ps : List Int) :
    buildZ [] (p :: ps) d = (0 + d * p) :: buildZ [] ps d := by
  simp only [buildZ, List.length_cons, List.length_nil, Nat.zero_max,
    List.range_succ_eq_map, List.map_cons, List.map_map]
  rfl

/-- Evaluating `Z = R + d·P` is linear: the key identity behind VSS
completeness. -/
theorem polyval_buildZ (R P : List Int) (d x : Int) :
    polyval (buildZ R P d) x = polyval R x + d * polyval P x := by
  induction R generalizing P with
  | nil =>
    induction P with
    | nil => simp [buildZ_nil_nil, polyval]
    | cons p ps ihp =>
      rw [buildZ_nil_cons]
      simp only [polyval]
      rw [ihp]
      simp only [polyval]
      ring
  | cons r rs ih =>
    cases P with
    | nil =>
      rw [buildZ_cons_nil]
      simp only [polyval]
      rw [ih []]
      simp only [polyval]
      ring
    | cons p ps =>
      rw [buildZ_cons_cons]
      simp only [polyval]
      rw [ih ps]
      ring

theorem idxGet_range_map {α : Type} (G : Nat → α) {n j : Nat} (hj : j < n) :
    idxGet ((List.range n).map G) ((j : Nat) : Int) = some (G j) := by
  unfold idxGet
  rw [if_neg (by omega), Int.toNat_natCast]
  rw [List.getElem?_eq_getElem (by simpa using hj)]
  simp

theorem mem_of_idxGet {α : Type} {l : List α} {i : Int} {a : α}
    (h : idxGet l i = some a) : a ∈ l := by
  unfold idxGet at h
  by_cases hi : i < 0
  · rw [if_pos hi] at h
    cases h
  · rw [if_neg hi] at h
    exact List.getElem?_mem h

/-- The computational core of VSS completeness: if the commitment stored at
index `nodeId − 1` was built from the polynomial evaluations at `nodeId` and
this gamma, the verifier accepts, because evaluating `Z = R + d·P` at
`nodeId` and subtracting `d` times the share recovers `R(nodeId)`. -/
theorem verifyVSSShare_of_eval (Pp Rp : List Int) (gam : Int)
    (comms : List (List Nat)) (nodeId : Int)
    (hcomm : idxGet comms (nodeId - 1) =
      some (hashCommitment (evaluatePolynomial Pp nodeId)
        (evaluatePolynomial Rp nodeId) gam)) :
    verifyVSSShare nodeId (evaluatePolynomial Pp nodeId) gam comms
      (buildZ Rp Pp (vssChallenge comms)) = true := by
  have hr : evaluatePolynomial (buildZ Rp Pp (vssChallenge comms)) nodeId -
      vssChallenge comms * evaluatePolynomial Pp nodeId =
      evaluatePolynomial Rp nodeId := by
    simp only [evaluatePolynomial_eq_polyval, polyval_buildZ]
    ring
  simp only [verifyVSSShare, hcomm, hr, toBytes_hashCommitment]
  simp

/-! ## Claim theorems -/

/-- Claim C7: additive sharing round-trip — for every secret `s` and share
count `n ≥ 2` (any threshold argument and any randomness draws),
`reconstructSecret (createSecretShares s n t)` returns `s`: the generated
shares always sum exactly to the secret. -/
theorem createSecretShares_roundtrip (s : Int) (n t : Nat) (rand : Nat → Int)
    (hn : 2 ≤ n) :
    reconstructSecret (createSecretShares s n t rand) = s := by
  simp only [reconstructSecret, createSecretShares, foldl_add_eq,
    List.sum_append, List.sum_cons, List.sum_nil]
  ring

theorem createSecretShares_roundtrip_witness :
    reconstructSecret (createSecretShares 42 3 2 (fun i => 5 * (i : Int) + 1)) = 42 :=
  createSecretShares_roundtrip 42 3 2 _ (by decide)

/-- Claim C9: signature aggregation — for a single 32-byte partial signature
`sig`, `aggregateSignatures [sig]` returns `sig` unchanged, and
`aggregateSignatures []` raises the usage error instead of returning a
value. -/
theorem aggregateSignatures_single (sig : List Nat) (h : sig.length = 32)
    (hb : ∀ b ∈ sig, b < 256) :
    aggregateSignatures [sig] = Except.ok sig ∧
    aggregateSignatures [] = Except.error "No signatures to aggregate" := by
  refine ⟨?_, rfl⟩
  simp only [aggregateSignatures, List.length_cons, List.length_nil,
    Nat.zero_add, OfNat.one_ne_ofNat, if_false, List.foldl_cons, List.foldl_nil,
    xorFold]
  refine congrArg Except.ok (List.ext_getElem (by simpa using h.symm) ?_)
  intro i h1 h2
  have hi32 : i < 32 := by simpa using h1
  have hisig : i < sig.length := by omega
  simp only [List.getElem_map, List.getElem_range]
  rw [if_pos hisig]
  have hrep : (List.replicate 32 (0 : Nat)).getD i 0 = 0 := by
    rw [List.getD_eq_getElem _ _ (by simpa using hi32), List.getElem_replicate]
  rw [hrep, Nat.zero_xor, List.getD_eq_getElem _ _ hisig]
  exact Nat.mod_eq_of_lt (hb _ (List.getElem_mem hisig))

theorem aggregateSignatures_single_witness :
    aggregateSignatures [List.replicate 32 7] = Except.ok (List.replicate 32 7) ∧
    aggregateSignatures [] = Except.error "No signatures to aggregate" :=
  aggregateSignatures_single _ (by decide) (by decide)

/-- Claim C10: only the new balance share is bound by the VSS check — two
decrypted bundles agreeing on `new_balance_share` and `gamma` but differing
arbitrarily in the other four fields receive the same `verifyTransitionVSS`
verdict on the same transition. -/
theorem verifyTransitionVSS_depends_only_on_balance_gamma (nodeId : Int)
    (t : StateTransition) (s₁ s₂ : ShareBundle)
    (hbal : s₁.new_balance_share = s₂.new_balance_share)
    (hg : s₁.gamma = s₂.gamma) :
    verifyTransitionVSS nodeId s₁ t = verifyTransitionVSS nodeId s₂ t := by
  unfold verifyTransitionVSS
  rw [hbal, hg]

theorem verifyTransitionVSS_depends_only_on_balance_gamma_witness :
    verifyTransitionVSS 1 ⟨1, 5, 2, 3, 4, some 9⟩ ⟨some [[1]], some [2]⟩ =
      verifyTransitionVSS 1 ⟨100, 5, 200, 300, 400, some 9⟩ ⟨some [[1]], some [2]⟩ :=
  verifyTransitionVSS_depends_only_on_balance_gamma 1 _ _ _ rfl rfl

/-- Claim C6: `validateTransition` never raises past its boundary — every
exception travelling in the body's error channel is converted into
`{valid:false, reason:"Error: <message>", partialSignature:null}`, and in
particular a failed authenticated decryption yields
`"Error: Decryption failed"`. -/
theorem validateTransition_catches_errors (v : MPCValidator) (t : StateTransition)
    (opened : Option ShareBundle) :
    (∀ msg, validateTransitionBody v t opened = Except.error msg →
      validateTransition v t opened = ⟨false, "Error: " ++ msg, none⟩) ∧
    (opened = none →
      validateTransition v t opened = ⟨false, "Error: Decryption failed", none⟩) := by
  constructor
  · intro msg hmsg
    simp [validateTransition, hmsg]
  · rintro rfl
    rfl

theorem validateTransition_catches_errors_witness :
    validateTransition ⟨1, [], []⟩ ⟨none, none⟩ none =
      ⟨false, "Error: Decryption failed", none⟩ :=
  (validateTransition_catches_errors _ _ _).2 rfl

/-- Claim C8 (counterexample): `validateTransfer` does NOT apply the
initialization exemption of `validateTransition` — a first-deposit pair of
bundles (`old_balance_share = old_nonce_share = new_nonce_share = 0`, balances
consistent) is rejected by the unconditional nonce check, where the claim
predicts acceptance. -/
theorem validateTransfer_init_exemption_cex :
    validateTransfer ⟨1, [], []⟩ (some ⟨0, 1000, 1000, 0, 0, some 0⟩)
      (some ⟨0, 1500, 1500, 0, 0, some 0⟩) =
      ⟨false, "Transfer validation failed on shares"⟩ := by
  decide

/-- Claim C8 (amended): `validateTransfer` applies the balance equation to
both decrypted bundles and the nonce-increment check to both bundles
UNCONDITIONALLY (no initialization exemption), performs no VSS check, and
returns `{valid, reason}` with no partial signature; every share-level
failure yields the single reason string. -/
theorem validateTransfer_checks (v : MPCValidator) (s r : ShareBundle) :
    validateTransfer v (some s) (some r) =
      if s.old_balance_share + s.amount_share = s.new_balance_share ∧
         r.old_balance_share + r.amount_share = r.new_balance_share ∧
         s.new_nonce_share = s.old_nonce_share + 1 ∧
         r.new_nonce_share = r.old_nonce_share + 1
      then ⟨true, "Transfer valid on shares"⟩
      else ⟨false, "Transfer validation failed on shares"⟩ := by
  simp only [validateTransfer, decryptFromSender]
  by_cases h1 : s.old_balance_share + s.amount_share = s.new_balance_share <;>
  by_cases h2 : r.old_balance_share + r.amount_share = r.new_balance_share <;>
  by_cases h3 : s.new_nonce_share = s.old_nonce_share + 1 <;>
  by_cases h4 : r.new_nonce_share = r.old_nonce_share + 1 <;>
  simp [h1, h2, h3, h4]

/-- Claim C1: whenever decryption succeeds, the VSS verification passes, the
balance equation holds on the shares, and the nonce check passes (increment
or initialization exemption), `validateTransition` returns `valid = true`
with reason "All checks passed" and a non-null partial signature. -/
theorem validateTransition_accepts (v : MPCValidator) (t : StateTransition)
    (s : ShareBundle)
    (hvss : (verifyTransitionVSS v.nodeId s t).valid = true)
    (hbal : s.old_balance_share + s.amount_share = s.new_balance_share)
    (hnonce : s.new_nonce_share = s.old_nonce_share + 1 ∨
      (s.old_balance_share = 0 ∧ s.old_nonce_share = 0 ∧ s.new_nonce_share = 0)) :
    validateTransition v t (some s) =
      ⟨true, "All checks passed",
        some (generatePartialSignature t s v.privateKey v.nodeId)⟩ := by
  rcases hnonce with hn | ⟨h0, h1, h2⟩
  · simp [validateTransition, validateTransitionBody, decryptFromSender,
      Except.map, validateDecrypted, hvss, hbal, hn]
  · have hbal2 : s.amount_share = s.new_balance_share := by omega
    simp [validateTransition, validateTransitionBody, decryptFromSender,
      Except.map, validateDecrypted, hvss, hbal2, h0, h1, h2]

theorem validateTransition_accepts_witness :
    validateTransition ⟨1, [1, 2, 3], [4, 5, 6]⟩
      ⟨some [hashCommitment 600 0 0],
       some [600 * vssChallenge [hashCommitment 600 0 0]]⟩
      (some ⟨500, 600, 100, 5, 6, some 0⟩) =
      ⟨true, "All checks passed",
        some (generatePartialSignature
          ⟨some [hashCommitment 600 0 0],
           some [600 * vssChallenge [hashCommitment 600 0 0]]⟩
          ⟨500, 600, 100, 5, 6, some 0⟩ [1, 2, 3] 1)⟩ :=
  validateTransition_accepts _ _ _ (by decide) (by decide) (Or.inl (by decide))

/-- Claim C2: whenever decryption and the VSS verification succeed but the
balance equation fails on the shares, `validateTransition` returns
`valid = false` with reason "Balance equation failed on share" and a null
partial signature. -/
theorem validateTransition_balance_reject (v : MPCValidator) (t : StateTransition)
    (s : ShareBundle)
    (hvss : (verifyTransitionVSS v.nodeId s t).valid = true)
    (hbal : s.old_balance_share + s.amount_share ≠ s.new_balance_share) :
    validateTransition v t (some s) =
      ⟨false, "Balance equation failed on share", none⟩ := by
  simp [validateTransition, validateTransitionBody, decryptFromSender,
    Except.map, validateDecrypted, hvss, hbal]

theorem validateTransition_balance_reject_witness :
    validateTransition ⟨1, [1, 2, 3], [4, 5, 6]⟩
      ⟨some [hashCommitment 650 0 0],
       some [650 * vssChallenge [hashCommitment 650 0 0]]⟩
      (some ⟨500, 650, 100, 5, 6, some 0⟩) =
      ⟨false, "Balance equation failed on share", none⟩ :=
  validateTransition_balance_reject _ _ _ (by decide) (by decide)

/-- Claim C3: for a bundle that reaches the nonce check (decryption, VSS and
balance checks passed), the check is skipped exactly in the initialization
case `old_balance_share = old_nonce_share = new_nonce_share = 0` (the
transition is then accepted), and otherwise a non-incremented nonce share is
rejected with reason "Nonce not incremented correctly on share" and a null
partial signature. -/
theorem validateTransition_nonce_check (v : MPCValidator) (t : StateTransition)
    (s : ShareBundle)
    (hvss : (verifyTransitionVSS v.nodeId s t).valid = true)
    (hbal : s.old_balance_share + s.amount_share = s.new_balance_share) :
    ((s.old_balance_share = 0 ∧ s.old_nonce_share = 0 ∧ s.new_nonce_share = 0) →
      (validateTransition v t (some s)).valid = true) ∧
    (¬(s.old_balance_share = 0 ∧ s.old_nonce_share = 0 ∧ s.new_nonce_share = 0) →
      s.new_nonce_share ≠ s.old_nonce_share + 1 →
      validateTransition v t (some s) =
        ⟨false, "Nonce not incremented correctly on share", none⟩) := by
  constructor
  · rintro ⟨h0, h1, h2⟩
    have hbal2 : s.amount_share = s.new_balance_share := by omega
    simp [validateTransition, validateTransitionBody, decryptFromSender,
      Except.map, validateDecrypted, hvss, hbal2, h0, h1, h2]
  · intro hninit hnonce
    simp [validateTransition, validateTransitionBody, decryptFromSender,
      Except.map, validateDecrypted, hvss, hbal, hninit, hnonce]

/-- Claim C4: VSS completeness — for every secret, threshold `t ≤ n`, node
count `n` and randomness draws, every node `i` in `1..n` accepts its share
`P(i)` with its gamma against the published commitments and proof
polynomial produced by `generateVSSProof`. -/
theorem generateVSSProof_complete (secret : Int) (t n : Nat) (rand : Nat → Int)
    (htn : t ≤ n) (i : Nat) (hi1 : 1 ≤ i) (hin : i ≤ n) :
    verifyVSSShare ((i : Nat) : Int)
      ((generateVSSProof secret t n rand).shares.getD (i - 1) 0)
      ((generateVSSProof secret t n rand).gammas.getD (i - 1) 0)
      (generateVSSProof secret t n rand).commitments
      (generateVSSProof secret t n rand).proofPolynomial = true := by
  have hi1n : i - 1 < n := by omega
  have hcast : ((i - 1 : Nat) : Int) + 1 = ((i : Nat) : Int) := by omega
  simp only [generateVSSProof, generateShamirShares]
  rw [getD_range_map _ hi1n, getD_range_map _ hi1n, hcast]
  apply verifyVSSShare_of_eval
  have h1 : ((i : Nat) : Int) - 1 = ((i - 1 : Nat) : Int) := by omega
  rw [h1, idxGet_range_map _ hi1n]
  rw [getD_range_map _ hi1n, getD_range_map _ hi1n, getD_range_map _ hi1n, hcast]

theorem generateVSSProof_complete_witness :
    verifyVSSShare ((2 : Nat) : Int)
      ((generateVSSProof 7 2 3 (fun j => (j : Int) + 1)).shares.getD (2 - 1) 0)
      ((generateVSSProof 7 2 3 (fun j => (j : Int) + 1)).gammas.getD (2 - 1) 0)
      (generateVSSProof 7 2 3 (fun j => (j : Int) + 1)).commitments
      (generateVSSProof 7 2 3 (fun j => (j : Int) + 1)).proofPolynomial = true :=
  generateVSSProof_complete 7 2 3 _ (by decide) 2 (by decide) (by decide)

/-- Claim C5: the VSS verifier is exactly the reference check — for
byte-valued commitment digests, `verifyVSSShare` returns `true` if and only
if SHA-256 of `share|r|gamma`, with `r = Z(nodeId) − d·share` and the
challenge `d` recomputed from the commitment set (never taken from the
caller), equals `commitments[nodeId−1]` byte-for-byte. -/
theorem verifyVSSShare_iff_spec (nodeId share gamma : Int)
    (commitments : List (List Nat)) (proofPolynomial : List Int)
    (hbytes : ∀ c ∈ commitments, ∀ b ∈ c, b < 256) :
    verifyVSSShare nodeId share gamma commitments proofPolynomial = true ↔
      vssShareSpecCheck nodeId share gamma commitments proofPolynomial := by
  have hmap : commitments.map toBytes = commitments := by
    rw [List.map_congr_left fun c hc => toBytes_of_bytes c (hbytes c hc)]
    exact List.map_id _
  have hch : vssChallenge commitments = specChallenge commitments := by
    unfold vssChallenge specChallenge
    rw [hmap]
  cases hidx : idxGet commitments (nodeId - 1) with
  | none =>
    simp only [verifyVSSShare, vssShareSpecCheck, hch, hidx]
    simp
  | some c =>
    have hc : c ∈ commitments := mem_of_idxGet hidx
    simp only [verifyVSSShare, vssShareSpecCheck, hch, hidx, Option.some.injEq,
      exists_eq_left']
    rw [toBytes_of_bytes c (hbytes c hc)]
    simp only [beq_iff_eq, hashCommitment]

theorem verifyVSSShare_iff_spec_witness :
    verifyVSSShare 1 0 0 [[1, 2, 3]] [0] = true ↔
      vssShareSpecCheck 1 0 0 [[1, 2, 3]] [0] :=
  verifyVSSShare_iff_spec 1 0 0 [[1, 2, 3]] [0] (by decide)

theorem validateTransition_nonce_check_witness :
    (validateTransition ⟨1, [1, 2, 3], [4, 5, 6]⟩
      ⟨some [hashCommitment 1000 0 0],
       some [1000 * vssChallenge [hashCommitment 1000 0 0]]⟩
      (some ⟨0, 1000, 1000, 0, 0, some 0⟩)).valid = true :=
  (validateTransition_nonce_check _ _ _ (by decide) (by decide)).1
    ⟨rfl, rfl, rfl⟩

end MPC
